import Mathlib

/-!
Shallow embedding of the NYSE market-hours engine from
`src/tests/nyse-token-hook.ts`.  That file contains two versions of the
engine: a "full" implementation (`convertUTCToEastern`,
`daysSinceEpochToDate`, `checkNYSEHoliday`, ...) and a "simplified" one
(`convertUTCToEasternSimple`, `daysToDateSimple`, `isNYSEHolidaySimple`).
All arithmetic is over `Int`.  JavaScript's `%` operator (sign of the
dividend) is modelled by `Int.tmod`; `Math.floor` of a quotient of
integers is `Int.ediv`.
-/

/-- JavaScript's `((x % n) + n) % n` normalisation idiom. -/
def jsmod (a n : Int) : Int := (a.tmod n + n).tmod n

/-- `isLeapYear` from the source: `(year % 4 == 0 && year % 100 != 0) || year % 400 == 0`. -/
def isLeapYear (year : Int) : Bool :=
  (year.tmod 4 == 0 && year.tmod 100 != 0) || year.tmod 400 == 0

/-- Length of a year in days, `isLeapYear(year) ? 366 : 365`. -/
def yearLen (year : Int) : Int := if isLeapYear year then 366 else 365

/-- The month-length table `daysInMonths` used by both conversion directions. -/
def daysInMonthsList (leap : Bool) : List Int :=
  if leap then [31, 29, 31, 30, 31, 30, 31, 31, 30, 31, 30, 31]
  else [31, 28, 31, 30, 31, 30, 31, 31, 30, 31, 30, 31]

/-- `getDaysInMonth` from the source (default branch returns 30). -/
def getDaysInMonth (year month : Int) : Int :=
  if month = 1 ∨ month = 3 ∨ month = 5 ∨ month = 7 ∨ month = 8 ∨ month = 10 ∨ month = 12 then 31
  else if month = 4 ∨ month = 6 ∨ month = 9 ∨ month = 11 then 30
  else if month = 2 then (if isLeapYear year then 29 else 28)
  else 30

structure DateInfo where
  year : Int
  month : Int
  day : Int
  weekday : Int
deriving DecidableEq, Repr

/-- The year-stripping `while` loop of `daysSinceEpochToDate`.  The source
loop terminates because each subtracting iteration removes at least 365
days; `fuel` is an upper bound on the number of iterations (the caller
passes `days.toNat / 365 + 1`, which is proved sufficient below). -/
def stripYears : Nat → Int → Int → Int × Int
  | 0, year, rem => (year, rem)
  | fuel + 1, year, rem =>
    if 365 ≤ rem then
      let yearDays := if isLeapYear year then 366 else 365
      if yearDays ≤ rem then stripYears fuel (year + 1) (rem - yearDays)
      else (year, rem)
    else (year, rem)

/-- The month-stripping `for` loop of `daysSinceEpochToDate`: walk the
month-length table, stopping at the first month the remainder fits in. -/
def monthLoop : List Int → Int → Int → Int × Int
  | [], month, rem => (month, rem)
  | d :: rest, month, rem =>
    if rem < d then (month, rem) else monthLoop rest (month + 1) (rem - d)

/-- `daysSinceEpochToDate` from the source: strip whole years, then whole
months, leaving a 1-indexed day; weekday is `((days + 4) % 7 + 7) % 7`. -/
def daysSinceEpochToDate (days : Int) : DateInfo :=
  let p := stripYears (days.toNat / 365 + 1) 1970 days
  let q := monthLoop (daysInMonthsList (isLeapYear p.1)) 1 p.2
  ⟨p.1, q.1, q.2 + 1, jsmod (days + 4) 7⟩

/-- Sum of `yearLen` over `n` consecutive years starting at `y`: the
`for (let y = 1970; y < year; y++)` accumulation in `dateToDatesSinceEpoch`. -/
def sumYearLens (y : Int) : Nat → Int
  | 0 => 0
  | n + 1 => yearLen y + sumYearLens (y + 1) n

/-- `dateToDatesSinceEpoch` from the source (the source function's name):
full years from 1970, plus full months from the table, plus `day - 1`. -/
def dateToDatesSinceEpoch (year month day : Int) : Int :=
  sumYearLens 1970 (year - 1970).toNat
    + ((daysInMonthsList (isLeapYear year)).take (month - 1).toNat).sum
    + (day - 1)

/-- The weekday expression `(((daysSinceEpoch + 4) % 7) + 7) % 7` the source
inlines at each use site, applied to a calendar date. -/
def weekdayOfDate (year month day : Int) : Int :=
  jsmod (dateToDatesSinceEpoch year month day + 4) 7

/-- The day scan of `getNthWeekdayOfMonth`, made partial-result-explicit:
`none` means the scan ran out of days (the source then falls back to 1). -/
def nthAux (year month targetWeekday occurrence : Int) :
    Int → Int → Nat → Option Int
  | _, _, 0 => none
  | day, count, left + 1 =>
    if jsmod (dateToDatesSinceEpoch year month day + 4) 7 = targetWeekday then
      if count + 1 = occurrence then some day
      else nthAux year month targetWeekday occurrence (day + 1) (count + 1) left
    else nthAux year month targetWeekday occurrence (day + 1) count left

/-- `getNthWeekdayOfMonth` from the source: scan days 1..daysInMonth,
return the day of the `occurrence`-th match, else the fallback 1. -/
def getNthWeekdayOfMonth (year month targetWeekday occurrence : Int) : Int :=
  (nthAux year month targetWeekday occurrence 1 0 (getDaysInMonth year month).toNat).getD 1

/-- The backward day scan of `getLastWeekdayOfMonth`. -/
def lastAux (year month targetWeekday : Int) : Int → Nat → Option Int
  | _, 0 => none
  | day, left + 1 =>
    if jsmod (dateToDatesSinceEpoch year month day + 4) 7 = targetWeekday then some day
    else lastAux year month targetWeekday (day - 1) left

/-- `getLastWeekdayOfMonth` from the source: scan from the last day of the
month backward, return the first match, else the fallback 1. -/
def getLastWeekdayOfMonth (year month targetWeekday : Int) : Int :=
  (lastAux year month targetWeekday (getDaysInMonth year month)
    (getDaysInMonth year month).toNat).getD 1

/-- `isDSTInEffect` from the source.  The `weekday` argument is accepted
but unused, exactly as in the source. -/
def isDSTInEffect (year month day weekday : Int) : Bool :=
  if month < 3 ∨ 11 < month then false
  else if 3 < month ∧ month < 11 then true
  else if month = 3 then decide (getNthWeekdayOfMonth year 3 0 2 ≤ day)
  else if month = 11 then decide (day < getNthWeekdayOfMonth year 11 0 1)
  else false

/-- ASCII apostrophe, used in two holiday names. -/
def apos : String := String.singleton (Char.ofNat 39)

def newYearsDayName : String := "New Year" ++ apos ++ "s Day"

def newYearsObservedName : String := newYearsDayName ++ " (Observed)"

/-- `checkNYSEHoliday` from the source: the sequential `if` blocks,
flattened into one chain (each block either returns or falls through). -/
def checkNYSEHoliday (year month day weekday : Int) : Option String :=
  if month = 1 ∧ day = 1 ∧ weekday ≠ 0 ∧ weekday ≠ 6 then some newYearsDayName
  else if month = 1 ∧ day = 2 ∧ weekday = 1 then some newYearsObservedName
  else if month = 1 ∧ day = 3 ∧ weekday = 1 then some newYearsObservedName
  else if month = 1 ∧ day = getNthWeekdayOfMonth year 1 1 3 then
    some ("Martin Luther King Jr. Day")
  else if month = 2 ∧ day = getNthWeekdayOfMonth year 2 1 3 then some "Presidents Day"
  else if month = 5 ∧ day = getLastWeekdayOfMonth year 5 1 then some "Memorial Day"
  else if month = 6 ∧ day = 19 ∧ weekday ≠ 0 ∧ weekday ≠ 6 then some "Juneteenth"
  else if month = 6 ∧ day = 20 ∧ weekday = 1 then some "Juneteenth (Observed)"
  else if month = 6 ∧ day = 21 ∧ weekday = 1 then some "Juneteenth (Observed)"
  else if month = 7 ∧ day = 4 ∧ weekday ≠ 0 ∧ weekday ≠ 6 then some "Independence Day"
  else if month = 7 ∧ day = 5 ∧ weekday = 1 then some "Independence Day (Observed)"
  else if month = 7 ∧ day = 6 ∧ weekday = 1 then some "Independence Day (Observed)"
  else if month = 9 ∧ day = getNthWeekdayOfMonth year 9 1 1 then some "Labor Day"
  else if month = 11 ∧ day = getNthWeekdayOfMonth year 11 4 4 then some "Thanksgiving Day"
  else if month = 12 ∧ day = 25 ∧ weekday ≠ 0 ∧ weekday ≠ 6 then some "Christmas Day"
  else if month = 12 ∧ day = 26 ∧ weekday = 1 then some "Christmas Day (Observed)"
  else if month = 12 ∧ day = 27 ∧ weekday = 1 then some "Christmas Day (Observed)"
  else none

structure EasternTime where
  year : Int
  month : Int
  day : Int
  hour : Int
  minute : Int
  second : Int
  weekday : Int
  isDST : Bool
deriving DecidableEq, Repr

/-- `convertUTCToEastern` from the full implementation, taking the UTC
epoch-second timestamp (the source computes it from a `Date` as
`Math.floor(getTime() / 1000)`; see `Full.getCurrentNYSEMarketState`).
Note that the calendar-date and weekday fields come from the UTC-derived
`daysSinceEpoch`; only hour/minute/second use the shifted timestamp. -/
def convertUTCToEastern (utcTimestamp : Int) : EasternTime :=
  let daysSinceEpoch := utcTimestamp / 86400
  let dateInfo := daysSinceEpochToDate daysSinceEpoch
  let isDST := isDSTInEffect dateInfo.year dateInfo.month dateInfo.day dateInfo.weekday
  let easternOffsetHours : Int := if isDST then -4 else -5
  let easternTimestamp := utcTimestamp + easternOffsetHours * 3600
  let easternSecondsToday := jsmod easternTimestamp 86400
  { year := dateInfo.year, month := dateInfo.month, day := dateInfo.day,
    hour := easternSecondsToday / 3600,
    minute := (easternSecondsToday % 3600) / 60,
    second := easternSecondsToday % 60,
    weekday := dateInfo.weekday, isDST := isDST }

/-- `padStart(2, "0")` on the decimal rendering of an integer. -/
def pad2 (n : Int) : String :=
  let s := toString n
  if s.length < 2 then "0" ++ s else s

/-- The `easternTimeString` built by the full `getCurrentNYSEMarketState`. -/
def easternTimeString (e : EasternTime) : String :=
  toString e.year ++ "-" ++ pad2 e.month ++ "-" ++ pad2 e.day ++ " "
    ++ pad2 e.hour ++ ":" ++ pad2 e.minute ++ ":" ++ pad2 e.second ++ " "
    ++ (if e.isDST then "EDT" else "EST")

structure MarketState where
  status : String
  isOpen : Bool
  reason : String
  easternTime : String
deriving DecidableEq, Repr

/-- Body of the full `getCurrentNYSEMarketState` after the Eastern-time
conversion: weekend check, then holiday check, then the 9:30-16:00 window. -/
def marketStateFromEastern (e : EasternTime) : MarketState :=
  let ets := easternTimeString e
  if e.weekday = 0 ∨ e.weekday = 6 then
    ⟨"WEEKEND", false, "Weekend", ets⟩
  else
    match checkNYSEHoliday e.year e.month e.day e.weekday with
    | some holidayName => ⟨"HOLIDAY", false, holidayName, ets⟩
    | none =>
      let currentMinutes := e.hour * 60 + e.minute
      let marketOpenMinutes : Int := 9 * 60 + 30
      let marketCloseMinutes : Int := 16 * 60
      if marketOpenMinutes ≤ currentMinutes ∧ currentMinutes < marketCloseMinutes then
        ⟨"OPEN", true, "Regular Trading Hours", ets⟩
      else
        let timeStatus := if currentMinutes < marketOpenMinutes then "Pre-Market" else "After-Market"
        ⟨"AFTER_HOURS", false, timeStatus ++ " (outside 9:30 AM - 4:00 PM ET)", ets⟩

namespace Full

/-- The full `getCurrentNYSEMarketState`.  In the source it takes no
argument and reads the ambient clock via `new Date()`; the embedding makes
that ambient clock reading (milliseconds since epoch) explicit. -/
def getCurrentNYSEMarketState (nowMs : Int) : MarketState :=
  marketStateFromEastern (convertUTCToEastern (nowMs / 1000))

end Full

/-- `isDaylightSavingTimeSimple` from the simplified implementation. -/
def isDaylightSavingTimeSimple (utcTimestamp : Int) : Bool :=
  let daysSinceEpoch := utcTimestamp / 86400
  let approxYear := 1970 + daysSinceEpoch / 365
  let daysInYear := daysSinceEpoch.tmod 365
  if 2007 ≤ approxYear then 70 ≤ daysInYear && daysInYear ≤ 305
  else 90 ≤ daysInYear && daysInYear ≤ 300

/-- `daysToDateSimple` from the simplified implementation: 365-day years,
non-leap month table, `day = max(daysLeft + 1, 1)`. -/
def daysToDateSimple (daysSinceEpoch : Int) : Int × Int × Int :=
  let approxYear := 1970 + daysSinceEpoch / 365
  let remainingDays := daysSinceEpoch.tmod 365
  let q := monthLoop (daysInMonthsList false) 1 remainingDays
  (approxYear, q.1, max (q.2 + 1) 1)

/-- `convertUTCToEasternSimple` from the simplified implementation.  Unlike
the full version, date and weekday are derived from the shifted timestamp. -/
def convertUTCToEasternSimple (utcTimestamp : Int) : EasternTime :=
  let isDST := isDaylightSavingTimeSimple utcTimestamp
  let easternOffsetSeconds : Int := if isDST then -4 * 3600 else -5 * 3600
  let easternTimestamp := utcTimestamp + easternOffsetSeconds
  let daysSinceEpoch := easternTimestamp / 86400
  let secondsInDay0 := easternTimestamp.tmod 86400
  let secondsInDay := if secondsInDay0 < 0 then secondsInDay0 + 86400 else secondsInDay0
  let weekday := jsmod (daysSinceEpoch + 4) 7
  let ymd := daysToDateSimple daysSinceEpoch
  { year := ymd.1, month := ymd.2.1, day := ymd.2.2,
    hour := secondsInDay / 3600,
    minute := (secondsInDay % 3600) / 60,
    second := secondsInDay % 60,
    weekday := weekday, isDST := isDST }

/-- `isNYSEHolidaySimple` from the simplified implementation. -/
def isNYSEHolidaySimple (year month day : Int) : Bool :=
  if month = 1 then day == 1
  else if month = 7 then day == 4
  else if month = 12 then day == 25
  else false

/-- The `easternTimeString` built by the simplified
`getCurrentNYSEMarketState` (it appends the weekday). -/
def easternTimeStringSimple (e : EasternTime) : String :=
  easternTimeString e ++ " (Weekday: " ++ toString e.weekday ++ ")"

/-- Body of the simplified `getCurrentNYSEMarketState` after conversion. -/
def marketStateFromEasternSimple (e : EasternTime) : MarketState :=
  let ets := easternTimeStringSimple e
  if e.weekday = 0 ∨ e.weekday = 6 then
    ⟨"WEEKEND", false, "Weekend", ets⟩
  else if isNYSEHolidaySimple e.year e.month e.day then
    ⟨"HOLIDAY", false, "NYSE Holiday", ets⟩
  else
    let currentMinutes := e.hour * 60 + e.minute
    let marketOpenMinutes : Int := 9 * 60 + 30
    let marketCloseMinutes : Int := 16 * 60
    if marketOpenMinutes ≤ currentMinutes ∧ currentMinutes < marketCloseMinutes then
      ⟨"OPEN", true, "Regular Trading Hours", ets⟩
    else
      let timeStatus := if currentMinutes < marketOpenMinutes then "Pre-Market" else "After-Market"
      ⟨"AFTER_HOURS", false, timeStatus ++ " (outside 9:30 AM - 4:00 PM ET)", ets⟩

namespace Simplified

/-- The simplified `getCurrentNYSEMarketState`; like the full one it reads
the ambient clock (`new Date()`), made explicit as `nowMs`. -/
def getCurrentNYSEMarketState (nowMs : Int) : MarketState :=
  marketStateFromEasternSimple (convertUTCToEasternSimple (nowMs / 1000))

end Simplified

/-! ### Arithmetic helper lemmas -/

lemma neg_tmod_left (a n : Int) : (-a).tmod n = -(a.tmod n) := by
  rw [Int.tmod_def, Int.tmod_def, Int.neg_tdiv]
  ring

/-- The JavaScript normalisation `((x % n) + n) % n` agrees with Euclidean mod. -/
lemma jsmod_eq_emod (a : Int) {n : Int} (hn : 0 < n) : jsmod a n = a % n := by
  have hub : a.tmod n < n := Int.tmod_lt_of_pos a hn
  have hlb : -n < a.tmod n := by
    rcases le_or_lt 0 a with h | h
    · have := Int.tmod_nonneg n h
      omega
    · have h2 : a.tmod n = -((-a).tmod n) := by rw [neg_tmod_left]; ring
      have h3 : (-a).tmod n < n := Int.tmod_lt_of_pos (-a) hn
      omega
  unfold jsmod
  rw [Int.tmod_eq_emod (by omega) (by omega)]
  rw [Int.add_emod_self]
  conv_lhs => rw [Int.tmod_def]
  have h4 : a - n * a.tdiv n = a + n * (-(a.tdiv n)) := by ring
  rw [h4, Int.add_mul_emod_self_left]

/-- `dateToDatesSinceEpoch` is linear in the day argument. -/
lemma dateToDatesSinceEpoch_day_shift (y m d : Int) :
    dateToDatesSinceEpoch y m d = dateToDatesSinceEpoch y m 1 + (d - 1) := by
  unfold dateToDatesSinceEpoch
  ring

/-- Every month of the table has at least 28 days. -/
lemma getDaysInMonth_ge (y m : Int) : 28 ≤ getDaysInMonth y m := by
  unfold getDaysInMonth
  split_ifs <;> omega

/-- Specification of the year-stripping loop: with enough fuel it strips
some number `n` of whole years and leaves a remainder below the length of
the year it stops in. -/
lemma stripYears_spec : ∀ (f : Nat) (y r : Int), 0 ≤ r → r < 365 * f + 365 →
    ∃ n : Nat, stripYears f y r = (y + (n : Int), r - sumYearLens y n) ∧
      0 ≤ r - sumYearLens y n ∧ r - sumYearLens y n < yearLen (y + (n : Int)) := by
  intro f
  induction f with
  | zero =>
    intro y r h0 hlt
    refine ⟨0, ?_, ?_, ?_⟩
    · simp [stripYears, sumYearLens]
    · simp [sumYearLens]; omega
    · simp only [sumYearLens, yearLen, Nat.cast_zero, add_zero, sub_zero]
      split <;> omega
  | succ f ih =>
    intro y r h0 hlt
    have hlt' : r < 365 * (f : Int) + 730 := by push_cast at hlt; omega
    by_cases h365 : (365 : Int) ≤ r
    · cases hL : isLeapYear y with
      | false =>
        have hstep : stripYears (f + 1) y r = stripYears f (y + 1) (r - 365) := by
          simp [stripYears, hL, h365]
        obtain ⟨n, hEq, hlo, hhi⟩ := ih (y + 1) (r - 365) (by omega) (by omega)
        have hsum : sumYearLens y (n + 1) = 365 + sumYearLens (y + 1) n := by
          simp [sumYearLens, yearLen, hL]
        have hy : y + ((n : Int) + 1) = (y + 1) + (n : Int) := by ring
        refine ⟨n + 1, ?_, ?_, ?_⟩
        · rw [hstep, hEq]
          simp only [Prod.mk.injEq]
          constructor
          · push_cast; ring
          · rw [hsum]; ring
        · rw [hsum]; omega
        · push_cast
          rw [hy, hsum]
          omega
      | true =>
        by_cases hyd : (366 : Int) ≤ r
        · have hstep : stripYears (f + 1) y r = stripYears f (y + 1) (r - 366) := by
            simp [stripYears, hL, h365, hyd]
          obtain ⟨n, hEq, hlo, hhi⟩ := ih (y + 1) (r - 366) (by omega) (by omega)
          have hsum : sumYearLens y (n + 1) = 366 + sumYearLens (y + 1) n := by
            simp [sumYearLens, yearLen, hL]
          have hy : y + ((n : Int) + 1) = (y + 1) + (n : Int) := by ring
          refine ⟨n + 1, ?_, ?_, ?_⟩
          · rw [hstep, hEq]
            simp only [Prod.mk.injEq]
            constructor
            · push_cast; ring
            · rw [hsum]; ring
          · rw [hsum]; omega
          · push_cast
            rw [hy, hsum]
            omega
        · refine ⟨0, ?_, ?_, ?_⟩
          · simp [stripYears, hL, h365, hyd, sumYearLens]
          · simp [sumYearLens]; omega
          · simp only [sumYearLens, yearLen, Nat.cast_zero, add_zero, sub_zero, hL, if_true]
            omega
    · refine ⟨0, ?_, ?_, ?_⟩
      · simp [stripYears, h365, sumYearLens]
      · simp [sumYearLens]; omega
      · simp only [sumYearLens, yearLen, Nat.cast_zero, add_zero, sub_zero]
        split <;> omega

set_option maxRecDepth 8000 in
/-- Specification of the month-stripping loop on an in-range remainder:
the prefix sum of stripped month lengths plus the final remainder gives
back the input, and the stop month is one of 1..12. -/
lemma monthLoop_spec : ∀ (leap : Bool) (k : Nat), k < (if leap then 366 else 365) →
    ((daysInMonthsList leap).take
          ((monthLoop (daysInMonthsList leap) 1 ((k : Int))).1 - 1).toNat).sum
        + (monthLoop (daysInMonthsList leap) 1 ((k : Int))).2 = (k : Int) ∧
      1 ≤ (monthLoop (daysInMonthsList leap) 1 ((k : Int))).1 ∧
      (monthLoop (daysInMonthsList leap) 1 ((k : Int))).1 ≤ 12 ∧
      0 ≤ (monthLoop (daysInMonthsList leap) 1 ((k : Int))).2 := by
  decide

lemma nthAux_some (y m t o : Int) (ht0 : 0 ≤ t) (ht7 : t < 7) :
    ∀ (left : Nat) (day count : Int), count < o →
      (t - (dateToDatesSinceEpoch y m day + 4)) % 7 + 1 + 7 * (o - count - 1) ≤ left →
      (nthAux y m t o day count left).isSome = true := by
  intro left
  induction left with
  | zero =>
    intro day count hco hb
    exfalso
    have hg : 0 ≤ (t - (dateToDatesSinceEpoch y m day + 4)) % 7 :=
      Int.emod_nonneg _ (by norm_num)
    omega
  | succ left ih =>
    intro day count hco hb
    have hD : dateToDatesSinceEpoch y m (day + 1) = dateToDatesSinceEpoch y m day + 1 := by
      rw [dateToDatesSinceEpoch_day_shift y m (day + 1), dateToDatesSinceEpoch_day_shift y m day]
      ring
    simp only [nthAux]
    rw [jsmod_eq_emod _ (by norm_num : (0 : Int) < 7)]
    by_cases hw : (dateToDatesSinceEpoch y m day + 4) % 7 = t
    · rw [if_pos hw]
      by_cases hc : count + 1 = o
      · rw [if_pos hc]
        rfl
      · rw [if_neg hc]
        apply ih (day + 1) (count + 1) (by omega)
        rw [hD]
        omega
    · rw [if_neg hw]
      apply ih (day + 1) count hco
      rw [hD]
      omega

lemma nthAux_ge (y m t o : Int) :
    ∀ (left : Nat) (day count d : Int),
      nthAux y m t o day count left = some d →
      day + (t - (dateToDatesSinceEpoch y m day + 4)) % 7 + 7 * (o - count - 1) ≤ d := by
  intro left
  induction left with
  | zero =>
    intro day count d hEq
    simp [nthAux] at hEq
  | succ left ih =>
    intro day count d hEq
    have hD : dateToDatesSinceEpoch y m (day + 1) = dateToDatesSinceEpoch y m day + 1 := by
      rw [dateToDatesSinceEpoch_day_shift y m (day + 1), dateToDatesSinceEpoch_day_shift y m day]
      ring
    simp only [nthAux] at hEq
    rw [jsmod_eq_emod _ (by norm_num : (0 : Int) < 7)] at hEq
    by_cases hw : (dateToDatesSinceEpoch y m day + 4) % 7 = t
    · rw [if_pos hw] at hEq
      by_cases hc : count + 1 = o
      · rw [if_pos hc] at hEq
        have hd : d = day := by
          cases hEq
          rfl
        omega
      · rw [if_neg hc] at hEq
        have := ih (day + 1) (count + 1) d hEq
        rw [hD] at this
        omega
    · rw [if_neg hw] at hEq
      have := ih (day + 1) count d hEq
      rw [hD] at this
      omega

lemma lastAux_some (y m t : Int) (ht0 : 0 ≤ t) (ht7 : t < 7) :
    ∀ (left : Nat) (day : Int),
      ((dateToDatesSinceEpoch y m day + 4) - t) % 7 < left →
      (lastAux y m t day left).isSome = true := by
  intro left
  induction left with
  | zero =>
    intro day hb
    exfalso
    have hg : 0 ≤ ((dateToDatesSinceEpoch y m day + 4) - t) % 7 :=
      Int.emod_nonneg _ (by norm_num)
    omega
  | succ left ih =>
    intro day hb
    have hD : dateToDatesSinceEpoch y m (day - 1) = dateToDatesSinceEpoch y m day - 1 := by
      rw [dateToDatesSinceEpoch_day_shift y m (day - 1), dateToDatesSinceEpoch_day_shift y m day]
      ring
    simp only [lastAux]
    rw [jsmod_eq_emod _ (by norm_num : (0 : Int) < 7)]
    by_cases hw : (dateToDatesSinceEpoch y m day + 4) % 7 = t
    · rw [if_pos hw]
      rfl
    · rw [if_neg hw]
      apply ih (day - 1)
      rw [hD]
      omega

lemma getNth_third_monday_jan_ge (y : Int) : 15 ≤ getNthWeekdayOfMonth y 1 1 3 := by
  unfold getNthWeekdayOfMonth
  have hdm : (getDaysInMonth y 1).toNat = 31 := by
    simp [getDaysInMonth]
  rw [hdm]
  have hs : (nthAux y 1 1 3 1 0 31).isSome = true := by
    apply nthAux_some y 1 1 3 (by norm_num) (by norm_num) 31 1 0 (by norm_num)
    have hg : 0 ≤ ((1 : Int) - (dateToDatesSinceEpoch y 1 1 + 4)) % 7 ∧
        ((1 : Int) - (dateToDatesSinceEpoch y 1 1 + 4)) % 7 < 7 := by
      constructor
      · exact Int.emod_nonneg _ (by norm_num)
      · exact Int.emod_lt_of_pos _ (by norm_num)
    omega
  obtain ⟨d, hd⟩ := Option.isSome_iff_exists.mp hs
  rw [hd]
  have := nthAux_ge y 1 1 3 31 1 0 d hd
  have hg : 0 ≤ ((1 : Int) - (dateToDatesSinceEpoch y 1 1 + 4)) % 7 :=
    Int.emod_nonneg _ (by norm_num)
  simp only [Option.getD_some]
  omega

/-! ### Claim theorems -/

/-- Claim C7: for every `days >= 0`, feeding the date produced by
`daysSinceEpochToDate days` into `dateToDatesSinceEpoch` returns `days`. -/
theorem C7_round_trip : ∀ days : Int, 0 ≤ days →
    dateToDatesSinceEpoch (daysSinceEpochToDate days).year (daysSinceEpochToDate days).month
      (daysSinceEpochToDate days).day = days := by
  intro days h0
  have hb : days < 365 * ((days.toNat / 365 + 1 : Nat) : Int) + 365 := by omega
  obtain ⟨n, hp, hlo, hhi⟩ := stripYears_spec (days.toNat / 365 + 1) 1970 days h0 hb
  have hk : days - sumYearLens 1970 n = (((days - sumYearLens 1970 n).toNat : Nat) : Int) := by
    omega
  have hklt : (days - sumYearLens 1970 n).toNat
      < (if isLeapYear (1970 + (n : Int)) then 366 else 365) := by
    cases hL : isLeapYear (1970 + (n : Int)) <;> simp [yearLen, hL] at hhi ⊢ <;> omega
  obtain ⟨hsum, hm1, hm12, hq0⟩ := monthLoop_spec (isLeapYear (1970 + (n : Int)))
    (days - sumYearLens 1970 n).toNat hklt
  simp only [daysSinceEpochToDate, hp]
  rw [hk]
  unfold dateToDatesSinceEpoch
  have hyn : ((1970 + (n : Int)) - 1970).toNat = n := by omega
  rw [hyn]
  omega

/-- Witness for C7 at the concrete input 20000. -/
theorem C7_round_trip_witness :
    (0 : Int) ≤ 20000 ∧
      dateToDatesSinceEpoch (daysSinceEpochToDate 20000).year (daysSinceEpochToDate 20000).month
        (daysSinceEpochToDate 20000).day = 20000 :=
  ⟨by decide, C7_round_trip 20000 (by decide)⟩

/-- Claim C10: for every negative `days`, `daysSinceEpochToDate` terminates
with year 1970, month 1, day `days + 1` (a non-positive value), and a
weekday in 0..6 computed as `((days + 4) % 7 + 7) % 7`. -/
theorem C10_negative_days : ∀ days : Int, days < 0 →
    (daysSinceEpochToDate days).year = 1970 ∧ (daysSinceEpochToDate days).month = 1 ∧
    (daysSinceEpochToDate days).day = days + 1 ∧ (daysSinceEpochToDate days).day ≤ 0 ∧
    (daysSinceEpochToDate days).weekday = jsmod (days + 4) 7 ∧
    0 ≤ (daysSinceEpochToDate days).weekday ∧ (daysSinceEpochToDate days).weekday < 7 := by
  intro days h
  have ht : days.toNat = 0 := by omega
  have hstrip : stripYears (days.toNat / 365 + 1) 1970 days = (1970, days) := by
    rw [ht]
    norm_num
    simp only [stripYears]
    rw [if_neg (by omega)]
  have hlp : isLeapYear 1970 = false := by decide
  have hml : monthLoop (daysInMonthsList (isLeapYear 1970)) 1 days = (1, days) := by
    rw [hlp]
    simp only [daysInMonthsList]
    norm_num
    simp only [monthLoop]
    rw [if_pos (by omega)]
  simp only [daysSinceEpochToDate, hstrip, hml]
  have hw : 0 ≤ jsmod (days + 4) 7 ∧ jsmod (days + 4) 7 < 7 := by
    rw [jsmod_eq_emod _ (by norm_num : (0 : Int) < 7)]
    omega
  exact ⟨trivial, trivial, trivial, by omega, trivial, hw.1, hw.2⟩

/-- Witness for C10 at the concrete input -5. -/
theorem C10_negative_days_witness :
    (-5 : Int) < 0 ∧
      ((daysSinceEpochToDate (-5)).year = 1970 ∧ (daysSinceEpochToDate (-5)).month = 1 ∧
        (daysSinceEpochToDate (-5)).day = (-5) + 1 ∧ (daysSinceEpochToDate (-5)).day ≤ 0 ∧
        (daysSinceEpochToDate (-5)).weekday = jsmod ((-5) + 4) 7 ∧
        0 ≤ (daysSinceEpochToDate (-5)).weekday ∧ (daysSinceEpochToDate (-5)).weekday < 7) :=
  ⟨by decide, C10_negative_days (-5) (by decide)⟩

/-- Claim C8: `isDSTInEffect` returns false in Dec/Jan/Feb, true in
Apr..Oct, compares against the second Sunday in March and the first Sunday
in November, and takes the stated values at the 2024 DST boundaries. -/
theorem C8_isDSTInEffect_rule :
    (∀ y d w : Int, isDSTInEffect y 1 d w = false ∧ isDSTInEffect y 2 d w = false ∧
      isDSTInEffect y 12 d w = false) ∧
    (∀ y d w mo : Int, 4 ≤ mo → mo ≤ 10 → isDSTInEffect y mo d w = true) ∧
    (∀ y d w : Int, isDSTInEffect y 3 d w = true ↔ getNthWeekdayOfMonth y 3 0 2 ≤ d) ∧
    (∀ y d w : Int, isDSTInEffect y 11 d w = true ↔ d < getNthWeekdayOfMonth y 11 0 1) ∧
    isDSTInEffect 2024 3 9 (weekdayOfDate 2024 3 9) = false ∧
    isDSTInEffect 2024 3 10 (weekdayOfDate 2024 3 10) = true ∧
    isDSTInEffect 2024 11 2 (weekdayOfDate 2024 11 2) = true ∧
    isDSTInEffect 2024 11 3 (weekdayOfDate 2024 11 3) = false := by
  refine ⟨?_, ?_, ?_, ?_, by decide, by decide, by decide, by decide⟩
  · intro y d w
    refine ⟨?_, ?_, ?_⟩ <;> · simp only [isDSTInEffect]; rw [if_pos (by omega)]
  · intro y d w mo h4 h10
    simp only [isDSTInEffect]
    rw [if_neg (by omega), if_pos (by omega)]
  · intro y d w
    simp [isDSTInEffect]
  · intro y d w
    simp [isDSTInEffect]

/-- Witness for C8 at month 7 (July is inside the Apr..Oct always-DST band). -/
theorem C8_isDSTInEffect_rule_witness :
    (4 : Int) ≤ 7 ∧ (7 : Int) ≤ 10 ∧ isDSTInEffect 2024 7 15 1 = true :=
  ⟨by decide, by decide, C8_isDSTInEffect_rule.2.1 2024 15 1 7 (by decide) (by decide)⟩

/-- Claim C9: on a Monday-Friday, non-holiday Eastern instant the
evaluator returns Open exactly when minutes-of-day is in [570, 960);
below the window it reports Pre-Market, at or above it After-Market. -/
theorem C9_trading_window : ∀ e : EasternTime, 1 ≤ e.weekday → e.weekday ≤ 5 →
    checkNYSEHoliday e.year e.month e.day e.weekday = none →
    ((9 * 60 + 30 ≤ e.hour * 60 + e.minute ∧ e.hour * 60 + e.minute < 16 * 60) →
      (marketStateFromEastern e).status = "OPEN" ∧ (marketStateFromEastern e).isOpen = true) ∧
    (e.hour * 60 + e.minute < 9 * 60 + 30 →
      (marketStateFromEastern e).status = "AFTER_HOURS" ∧
      (marketStateFromEastern e).isOpen = false ∧
      (marketStateFromEastern e).reason = "Pre-Market (outside 9:30 AM - 4:00 PM ET)") ∧
    (16 * 60 ≤ e.hour * 60 + e.minute →
      (marketStateFromEastern e).status = "AFTER_HOURS" ∧
      (marketStateFromEastern e).isOpen = false ∧
      (marketStateFromEastern e).reason = "After-Market (outside 9:30 AM - 4:00 PM ET)") := by
  intro e hw1 hw5 hhol
  have hbody : marketStateFromEastern e =
      (if 9 * 60 + 30 ≤ e.hour * 60 + e.minute ∧ e.hour * 60 + e.minute < 16 * 60 then
        ⟨"OPEN", true, "Regular Trading Hours", easternTimeString e⟩
      else
        ⟨"AFTER_HOURS", false,
          (if e.hour * 60 + e.minute < 9 * 60 + 30 then "Pre-Market" else "After-Market")
            ++ " (outside 9:30 AM - 4:00 PM ET)", easternTimeString e⟩) := by
    simp only [marketStateFromEastern]
    rw [if_neg (by omega), hhol]
  refine ⟨?_, ?_, ?_⟩
  · intro hopen
    rw [hbody, if_pos (by omega)]
    exact ⟨rfl, rfl⟩
  · intro hpre
    rw [hbody, if_neg (by omega)]
    refine ⟨rfl, rfl, ?_⟩
    show (if e.hour * 60 + e.minute < 9 * 60 + 30 then "Pre-Market" else "After-Market")
        ++ " (outside 9:30 AM - 4:00 PM ET)" = "Pre-Market (outside 9:30 AM - 4:00 PM ET)"
    rw [if_pos (by omega)]
    decide
  · intro hpost
    rw [hbody, if_neg (by omega)]
    refine ⟨rfl, rfl, ?_⟩
    show (if e.hour * 60 + e.minute < 9 * 60 + 30 then "Pre-Market" else "After-Market")
        ++ " (outside 9:30 AM - 4:00 PM ET)" = "After-Market (outside 9:30 AM - 4:00 PM ET)"
    rw [if_neg (by omega)]
    decide

/-- Witness for C9 on Monday 2024-06-10 (a non-holiday) at the four
boundary minutes-of-day 569, 570, 959 and 960. -/
theorem C9_trading_window_witness :
    checkNYSEHoliday 2024 6 10 1 = none ∧
    (marketStateFromEastern ⟨2024, 6, 10, 9, 29, 0, 1, true⟩).reason
      = "Pre-Market (outside 9:30 AM - 4:00 PM ET)" ∧
    (marketStateFromEastern ⟨2024, 6, 10, 9, 30, 0, 1, true⟩).status = "OPEN" ∧
    (marketStateFromEastern ⟨2024, 6, 10, 15, 59, 0, 1, true⟩).status = "OPEN" ∧
    (marketStateFromEastern ⟨2024, 6, 10, 16, 0, 0, 1, true⟩).reason
      = "After-Market (outside 9:30 AM - 4:00 PM ET)" :=
  ⟨by decide,
   ((C9_trading_window ⟨2024, 6, 10, 9, 29, 0, 1, true⟩ (by decide) (by decide)
      (by decide)).2.1 (by decide)).2.2,
   ((C9_trading_window ⟨2024, 6, 10, 9, 30, 0, 1, true⟩ (by decide) (by decide)
      (by decide)).1 (by decide)).1,
   ((C9_trading_window ⟨2024, 6, 10, 15, 59, 0, 1, true⟩ (by decide) (by decide)
      (by decide)).1 (by decide)).1,
   ((C9_trading_window ⟨2024, 6, 10, 16, 0, 0, 1, true⟩ (by decide) (by decide)
      (by decide)).2.2 (by decide)).2.2⟩

/-- Claim C3, counterexample: at UTC timestamp 0 the weekday field of the
returned instant (Thursday, from the UTC-derived day) differs from the
weekday re-derived from `floor(easternEpochSeconds / 86400)` (Wednesday:
the Eastern instant is still 1969-12-31). -/
theorem C3_counterexample :
    ¬ ((convertUTCToEastern 0).weekday
        = (daysSinceEpochToDate
            ((0 + (if (convertUTCToEastern 0).isDST then (-4 : Int) else -5) * 3600)
              / 86400)).weekday) := by
  decide

/-- Claim C3 (amended): the evaluator applies the Eastern offset and
re-derives only the time-of-day (hour/minute/second, with negative wrap)
from the shifted value `utc + offsetHours*3600`; the year, month, day and
weekday fields are the ones computed from the UTC-derived day
`floor(utc / 86400)`, not from the shifted value. -/
theorem C3_eastern_conversion : ∀ utc : Int,
    (convertUTCToEastern utc).year = (daysSinceEpochToDate (utc / 86400)).year ∧
    (convertUTCToEastern utc).month = (daysSinceEpochToDate (utc / 86400)).month ∧
    (convertUTCToEastern utc).day = (daysSinceEpochToDate (utc / 86400)).day ∧
    (convertUTCToEastern utc).weekday = (daysSinceEpochToDate (utc / 86400)).weekday ∧
    (convertUTCToEastern utc).hour * 3600 + (convertUTCToEastern utc).minute * 60
        + (convertUTCToEastern utc).second
      = (utc + (if (convertUTCToEastern utc).isDST then -4 else -5) * 3600) % 86400 ∧
    0 ≤ (utc + (if (convertUTCToEastern utc).isDST then -4 else -5) * 3600) % 86400 ∧
    (utc + (if (convertUTCToEastern utc).isDST then -4 else -5) * 3600) % 86400 < 86400 := by
  intro utc
  simp only [convertUTCToEastern]
  rw [jsmod_eq_emod _ (by norm_num : (0 : Int) < 86400)]
  refine ⟨trivial, trivial, trivial, trivial, ?_, ?_, ?_⟩ <;> omega

/-- Claim C2, counterexample: the entry point takes no time argument in
the source and reads `new Date()` itself, so two executions with no
caller-supplied input but different ambient clock readings disagree. -/
theorem C2_counterexample :
    Full.getCurrentNYSEMarketState 140400000 ≠ Full.getCurrentNYSEMarketState 216000000 := by
  decide

/-- Claim C2 (amended): the evaluation downstream of the clock read is a
pure function of the clock value: any two executions whose millisecond
clock readings agree at second granularity produce identical MarketState
output, for both the full and the simplified entry points. -/
theorem C2_deterministic : ∀ ms1 ms2 : Int, ms1 / 1000 = ms2 / 1000 →
    Full.getCurrentNYSEMarketState ms1 = Full.getCurrentNYSEMarketState ms2 ∧
    Simplified.getCurrentNYSEMarketState ms1 = Simplified.getCurrentNYSEMarketState ms2 := by
  intro ms1 ms2 h
  unfold Full.getCurrentNYSEMarketState Simplified.getCurrentNYSEMarketState
  rw [h]
  exact ⟨rfl, rfl⟩

/-- Witness for C2 at two clock readings inside the same second. -/
theorem C2_deterministic_witness :
    (1705330800400 : Int) / 1000 = (1705330800900 : Int) / 1000 ∧
    Full.getCurrentNYSEMarketState 1705330800400 = Full.getCurrentNYSEMarketState 1705330800900 ∧
    Simplified.getCurrentNYSEMarketState 1705330800400
      = Simplified.getCurrentNYSEMarketState 1705330800900 :=
  ⟨by decide, (C2_deterministic 1705330800400 1705330800900 (by decide)).1,
    (C2_deterministic 1705330800400 1705330800900 (by decide)).2⟩

/-- Claim C1, counterexample: at the UTC second 1705330800 (2024-01-15
15:00 UTC, Martin Luther King Jr. Day at 10:00 Eastern) the full pipeline
classifies HOLIDAY while the simplified pipeline classifies OPEN. -/
theorem C1_counterexample :
    (marketStateFromEastern (convertUTCToEastern 1705330800)).status
      ≠ (marketStateFromEasternSimple (convertUTCToEasternSimple 1705330800)).status := by
  decide

/-- Claim C1 (amended): the two pipelines agree on some timestamps (e.g.
1970-01-02 15:00 UTC, both OPEN) but drift on others: on MLK Day 2024 the
full engine reports HOLIDAY while the simplified engine reports OPEN, so
the two independently maintained copies do not have zero drift. -/
theorem C1_engines_drift :
    (marketStateFromEastern (convertUTCToEastern 140400)).status
        = (marketStateFromEasternSimple (convertUTCToEasternSimple 140400)).status ∧
    (marketStateFromEastern (convertUTCToEastern 1705330800)).status = "HOLIDAY" ∧
    (marketStateFromEasternSimple (convertUTCToEasternSimple 1705330800)).status = "OPEN" := by
  decide

/-- `dateToDatesSinceEpoch` shifts weekday by the day difference mod 7. -/
lemma weekdayOfDate_shift (y m a b : Int) :
    weekdayOfDate y m b = (weekdayOfDate y m a + (b - a)) % 7 := by
  unfold weekdayOfDate
  rw [jsmod_eq_emod _ (by norm_num : (0 : Int) < 7), jsmod_eq_emod _ (by norm_num : (0 : Int) < 7)]
  rw [dateToDatesSinceEpoch_day_shift y m a, dateToDatesSinceEpoch_day_shift y m b]
  omega

/-- Claim C4, counterexample: Jan 1, 2022 is a Saturday, yet
`checkNYSEHoliday` names Monday Jan 3, 2022 as an observed New Year's Day
holiday, so a shift IS applied for Saturday holidays. -/
theorem C4_counterexample :
    weekdayOfDate 2022 1 1 = 6 ∧ weekdayOfDate 2022 1 3 = 1 ∧
    checkNYSEHoliday 2022 1 3 1 = some newYearsObservedName := by
  decide

/-- Claim C4 (amended): when a fixed holiday falls on a Saturday the date
itself gets no name, but the code does shift the observance: the following
Monday (holiday date + 2) is named "(Observed)", for each fixed holiday. -/
theorem C4_saturday_observed : ∀ y : Int,
    (weekdayOfDate y 1 1 = 6 →
      checkNYSEHoliday y 1 1 6 = none ∧
      checkNYSEHoliday y 1 3 (weekdayOfDate y 1 3) = some newYearsObservedName) ∧
    (weekdayOfDate y 6 19 = 6 →
      checkNYSEHoliday y 6 19 6 = none ∧
      checkNYSEHoliday y 6 21 (weekdayOfDate y 6 21) = some "Juneteenth (Observed)") ∧
    (weekdayOfDate y 7 4 = 6 →
      checkNYSEHoliday y 7 4 6 = none ∧
      checkNYSEHoliday y 7 6 (weekdayOfDate y 7 6) = some "Independence Day (Observed)") ∧
    (weekdayOfDate y 12 25 = 6 →
      checkNYSEHoliday y 12 25 6 = none ∧
      checkNYSEHoliday y 12 27 (weekdayOfDate y 12 27) = some "Christmas Day (Observed)") := by
  intro y
  refine ⟨?_, ?_, ?_, ?_⟩
  · intro h6
    have h3 : weekdayOfDate y 1 3 = 1 := by
      rw [weekdayOfDate_shift y 1 1 3, h6]
      decide
    have hne : ¬ ((1 : Int) = getNthWeekdayOfMonth y 1 1 3) := by
      have := getNth_third_monday_jan_ge y
      omega
    constructor
    · simp [checkNYSEHoliday, hne]
    · rw [h3]
      simp [checkNYSEHoliday]
  · intro h6
    have h3 : weekdayOfDate y 6 21 = 1 := by
      rw [weekdayOfDate_shift y 6 19 21, h6]
      decide
    constructor
    · simp [checkNYSEHoliday]
    · rw [h3]
      simp [checkNYSEHoliday]
  · intro h6
    have h3 : weekdayOfDate y 7 6 = 1 := by
      rw [weekdayOfDate_shift y 7 4 6, h6]
      decide
    constructor
    · simp [checkNYSEHoliday]
    · rw [h3]
      simp [checkNYSEHoliday]
  · intro h6
    have h3 : weekdayOfDate y 12 27 = 1 := by
      rw [weekdayOfDate_shift y 12 25 27, h6]
      decide
    constructor
    · simp [checkNYSEHoliday]
    · rw [h3]
      simp [checkNYSEHoliday]

/-- Witness for C4 in the years whose fixed holidays fall on a Saturday:
2022 (Jan 1), 2021 (June 19, Dec 25) and 2020 (July 4). -/
theorem C4_saturday_observed_witness :
    weekdayOfDate 2022 1 1 = 6 ∧ checkNYSEHoliday 2022 1 1 6 = none ∧
    checkNYSEHoliday 2022 1 3 (weekdayOfDate 2022 1 3) = some newYearsObservedName ∧
    weekdayOfDate 2021 6 19 = 6 ∧ checkNYSEHoliday 2021 6 19 6 = none ∧
    checkNYSEHoliday 2021 6 21 (weekdayOfDate 2021 6 21) = some "Juneteenth (Observed)" ∧
    weekdayOfDate 2020 7 4 = 6 ∧ checkNYSEHoliday 2020 7 4 6 = none ∧
    checkNYSEHoliday 2020 7 6 (weekdayOfDate 2020 7 6) = some "Independence Day (Observed)" ∧
    weekdayOfDate 2021 12 25 = 6 ∧ checkNYSEHoliday 2021 12 25 6 = none ∧
    checkNYSEHoliday 2021 12 27 (weekdayOfDate 2021 12 27) = some "Christmas Day (Observed)" :=
  ⟨by decide, ((C4_saturday_observed 2022).1 (by decide)).1,
   ((C4_saturday_observed 2022).1 (by decide)).2,
   by decide, ((C4_saturday_observed 2021).2.1 (by decide)).1,
   ((C4_saturday_observed 2021).2.1 (by decide)).2,
   by decide, ((C4_saturday_observed 2020).2.2.1 (by decide)).1,
   ((C4_saturday_observed 2020).2.2.1 (by decide)).2,
   by decide, ((C4_saturday_observed 2021).2.2.2 (by decide)).1,
   ((C4_saturday_observed 2021).2.2.2 (by decide)).2⟩

/-- Claim C5, counterexample: Jan 1, 2023 is a Sunday, but the day at
"holiday date + 2" (Jan 3, 2023, a Tuesday) gets no name from
`checkNYSEHoliday`; the observed day is Jan 2 (holiday date + 1). -/
theorem C5_counterexample :
    weekdayOfDate 2023 1 1 = 0 ∧ weekdayOfDate 2023 1 3 = 2 ∧
    checkNYSEHoliday 2023 1 3 2 = none := by
  decide

/-- Claim C5 (amended): when a fixed holiday falls on Sunday, the
following Monday — holiday date + 1, not + 2 — is the day named
"<Holiday> (Observed)", for each fixed holiday. -/
theorem C5_sunday_observed : ∀ y : Int,
    (weekdayOfDate y 1 1 = 0 →
      checkNYSEHoliday y 1 2 (weekdayOfDate y 1 2) = some newYearsObservedName) ∧
    (weekdayOfDate y 6 19 = 0 →
      checkNYSEHoliday y 6 20 (weekdayOfDate y 6 20) = some "Juneteenth (Observed)") ∧
    (weekdayOfDate y 7 4 = 0 →
      checkNYSEHoliday y 7 5 (weekdayOfDate y 7 5) = some "Independence Day (Observed)") ∧
    (weekdayOfDate y 12 25 = 0 →
      checkNYSEHoliday y 12 26 (weekdayOfDate y 12 26) = some "Christmas Day (Observed)") := by
  intro y
  refine ⟨?_, ?_, ?_, ?_⟩
  · intro h0
    have h2 : weekdayOfDate y 1 2 = 1 := by
      rw [weekdayOfDate_shift y 1 1 2, h0]
      decide
    rw [h2]
    simp [checkNYSEHoliday]
  · intro h0
    have h2 : weekdayOfDate y 6 20 = 1 := by
      rw [weekdayOfDate_shift y 6 19 20, h0]
      decide
    rw [h2]
    simp [checkNYSEHoliday]
  · intro h0
    have h2 : weekdayOfDate y 7 5 = 1 := by
      rw [weekdayOfDate_shift y 7 4 5, h0]
      decide
    rw [h2]
    simp [checkNYSEHoliday]
  · intro h0
    have h2 : weekdayOfDate y 12 26 = 1 := by
      rw [weekdayOfDate_shift y 12 25 26, h0]
      decide
    rw [h2]
    simp [checkNYSEHoliday]

/-- Witness for C5: Jan 1, 2023 (Sunday) gives "New Year's Day (Observed)"
on Jan 2, 2023, and July 4, 2021 (Sunday) gives "Independence Day
(Observed)" on July 5, 2021 — the claim's own examples. -/
theorem C5_sunday_observed_witness :
    weekdayOfDate 2023 1 1 = 0 ∧
    checkNYSEHoliday 2023 1 2 (weekdayOfDate 2023 1 2) = some newYearsObservedName ∧
    weekdayOfDate 2021 7 4 = 0 ∧
    checkNYSEHoliday 2021 7 5 (weekdayOfDate 2021 7 5) = some "Independence Day (Observed)" :=
  ⟨by decide, (C5_sunday_observed 2023).1 (by decide),
   by decide, (C5_sunday_observed 2021).2.2.1 (by decide)⟩

/-- Claim C6, counterexample: February 2023 has exactly four of each
weekday, so for occurrence 5 the scan finds nothing and
`getNthWeekdayOfMonth` returns its defensive fallback 1. -/
theorem C6_counterexample :
    nthAux 2023 2 0 5 1 0 (getDaysInMonth 2023 2).toNat = none ∧
    getNthWeekdayOfMonth 2023 2 0 5 = 1 := by
  decide

/-- Claim C6 (amended): for every year, month 1..12, weekday 0..6 and
occurrence 1..4 the scan of `getNthWeekdayOfMonth` finds a matching day
(every month has at least 28 days, hence at least four of each weekday),
and the backward scan of `getLastWeekdayOfMonth` always finds one; the
fallbacks are unreachable there.  Occurrence 5 can miss (see the
counterexample), so the claim's range 1..5 is too wide. -/
theorem C6_scan_reaches_occurrence :
    (∀ y m t o : Int, 1970 ≤ y → 1 ≤ m → m ≤ 12 → 0 ≤ t → t ≤ 6 → 1 ≤ o → o ≤ 4 →
      (nthAux y m t o 1 0 (getDaysInMonth y m).toNat).isSome = true) ∧
    (∀ y m t : Int, 1 ≤ m → m ≤ 12 → 0 ≤ t → t ≤ 6 →
      (lastAux y m t (getDaysInMonth y m) (getDaysInMonth y m).toNat).isSome = true) := by
  constructor
  · intro y m t o hy hm1 hm12 ht0 ht6 ho1 ho4
    apply nthAux_some y m t o ht0 (by omega) _ 1 0 (by omega)
    have h28 := getDaysInMonth_ge y m
    omega
  · intro y m t hm1 hm12 ht0 ht6
    apply lastAux_some y m t ht0 (by omega)
    have h28 := getDaysInMonth_ge y m
    omega

/-- Witness for C6: the scans succeed for the first Sunday of November
2024 and the last Monday of May 2024. -/
theorem C6_scan_reaches_occurrence_witness :
    ((1970 : Int) ≤ 2024 ∧ (1 : Int) ≤ 11 ∧ (11 : Int) ≤ 12 ∧ (0 : Int) ≤ 0 ∧
        (0 : Int) ≤ 6 ∧ (1 : Int) ≤ 1 ∧ (1 : Int) ≤ 4) ∧
    (nthAux 2024 11 0 1 1 0 (getDaysInMonth 2024 11).toNat).isSome = true ∧
    (lastAux 2024 5 1 (getDaysInMonth 2024 5) (getDaysInMonth 2024 5).toNat).isSome = true :=
  ⟨by decide,
   C6_scan_reaches_occurrence.1 2024 11 0 1 (by decide) (by decide) (by decide) (by decide)
     (by decide) (by decide) (by decide),
   C6_scan_reaches_occurrence.2 2024 5 1 (by decide) (by decide) (by decide) (by decide)⟩
